import Mathlib

/-!
Verification of the Weather-Pusher monitor (`weater_monitor.py`).

The Python program is embedded shallowly:
* network/JSON plumbing is abstracted as explicit inputs: a fetch result is
  an `Option` response record (`none` models transport failure after the
  retry loop is exhausted);
* `datetime` instants are minutes since an arbitrary epoch (`Nat`);
  calendar dates are day ordinals (`Int`) plus the `%Y-%m-%d` string;
* Python floats that the program only compares and prints are `Rat` plus
  the string form the f-string would render;
* Python's `k in s` substring test is `pyIn`.
-/

namespace WeatherPusher

/-- `hasSub pat s` : `pat` occurs as a contiguous sublist of `s`. -/
def hasSub (pat : List Char) : List Char → Bool
  | [] => pat.isEmpty
  | c :: rest => pat.isPrefixOf (c :: rest) || hasSub pat rest

/-- Python's `pat in s` substring test on strings. -/
def pyIn (pat s : String) : Bool :=
  hasSub pat.data s.data

/-- Configuration loaded by `_load_config` from `config.ini`. -/
structure Config where
  feishu_webhook_url : String
  qweather_key : String
  api_host : String
  location : String
  location_name : String
  daily_push_hour : Nat
  daily_push_minute : Nat
  check_interval_minutes : Nat
  rain_threshold_precip : Rat
  rain_threshold_pop : Int
deriving DecidableEq

/-- The current instant as the monitor reads it (`datetime.now` in UTC+8):
clock fields, the `%Y-%m-%d` string, the date as a day ordinal, and the
absolute instant in minutes (used by the hourly window filter). -/
structure Now where
  hour : Nat
  minute : Nat
  second : Nat
  dateStr : String
  dateOrd : Int
  absMinutes : Nat
deriving DecidableEq

/-- One record of the provider's `daily` array, as `_handle_daily_push`
reads it.  `precip` is `float(item.get('precip','0.0'))`; `precipStr` is
the string the f-string `f"{precip_mm}"` renders for that float.
`fxDateOrd` is the day ordinal of the parsed `fxDate`. -/
structure DailyForecast where
  fxDate : String
  fxDateOrd : Int
  textDay : String
  textNight : String
  precip : Rat
  precipStr : String
  tempMin : String
  tempMax : String
  windDirDay : String
  windScaleDay : String
  humidity : String
deriving DecidableEq

/-- One record of the provider's `hourly` array: absolute forecast instant
in minutes (`fxTime`), condition text, parsed `pop`. -/
structure RawHourly where
  fxTime : Nat
  text : String
  pop : Int
deriving DecidableEq

/-- A structured record produced by `get_hourly_weather`. -/
structure HourlyForecast where
  time : String
  text : String
  pop : Int
deriving DecidableEq

/-- Body of a successful `/v7/weather/3d` response. -/
structure DailyResp where
  code : String
  daily : List DailyForecast
deriving DecidableEq

/-- Body of a successful `/v7/weather/24h` response. -/
structure HourlyResp where
  code : String
  hourly : List RawHourly
deriving DecidableEq

/-- `get_daily_weather`: `None` on transport failure (`resp = none`) or a
provider code other than `"200"`, else the `daily` array. -/
def get_daily_weather (resp : Option DailyResp) : Option (List DailyForecast) :=
  match resp with
  | none => none
  | some r => if r.code ≠ "200" then none else some r.daily

/-- Two-digit decimal rendering used by `strftime('%H:%M')`. -/
def pad2 (n : Nat) : String :=
  if n < 10 then "0" ++ toString n else toString n

/-- The `%H:%M` label of an absolute instant, displayed in UTC+8. -/
def hhmmLabel (t : Nat) : String :=
  pad2 (((t + 480) / 60) % 24) ++ ":" ++ pad2 ((t + 480) % 60)

/-- The filtering loop of `get_hourly_weather`: keep records with
`now <= fx_time <= now + 6h` and map them to structured entries. -/
def hourlyWindow (now : Nat) : List RawHourly → List HourlyForecast
  | [] => []
  | item :: rest =>
    if now ≤ item.fxTime ∧ item.fxTime ≤ now + 360 then
      { time := hhmmLabel item.fxTime, text := item.text, pop := item.pop }
        :: hourlyWindow now rest
    else hourlyWindow now rest

/-- `get_hourly_weather`: empty list on transport failure or a provider
code other than `"200"`, else the windowed structured records. -/
def get_hourly_weather (now : Nat) (resp : Option HourlyResp) : List HourlyForecast :=
  match resp with
  | none => []
  | some r => if r.code ≠ "200" then [] else hourlyWindow now r.hourly

/-- The record a window entry is mapped to. -/
def toForecast (item : RawHourly) : HourlyForecast :=
  { time := hhmmLabel item.fxTime, text := item.text, pop := item.pop }

/-- The rain keyword list of `_handle_daily_push`. -/
def rain_keywords : List String := ["阵雨", "中雨", "大雨", "暴雨", "极端降雨"]

/-- The other-severe-weather keyword list of `_handle_daily_push`. -/
def other_severe_keywords : List String :=
  ["冰雹", "台风", "雪", "暴雪", "大雪", "沙尘暴", "雾", "霾", "冻雨", "雨夹雪"]

/-- `day_map = {0: "今天", 1: "明天", 2: "后天"}`. -/
def day_map (d : Int) : Option String :=
  if d = 0 then some "今天" else if d = 1 then some "明天" else if d = 2 then some "后天" else none

/-- The rain test of the daily loop: keyword hit on `textDay ++ textNight`,
or precipitation at least `5.0` mm together with a `雨` in that text. -/
def dayIsRain (f : DailyForecast) : Bool :=
  let text_to_check := f.textDay ++ f.textNight
  rain_keywords.any (fun k => pyIn k text_to_check) ||
    (decide ((5 : Rat) ≤ f.precip) && pyIn "雨" text_to_check)

/-- The severe test of the daily loop (the `break` makes the inner keyword
loop an existence test appending one line). -/
def dayIsSevere (f : DailyForecast) : Bool :=
  other_severe_keywords.any (fun k => pyIn k (f.textDay ++ f.textNight))

/-- Accumulators of the 3-day scanning loop in `_handle_daily_push`. -/
structure DailyScan where
  rain_alerts : List String
  other_severe_alerts : List String
  rain_days_indices : List Int
  severe_days_indices : List Int
deriving DecidableEq

/-- The alert line appended for a rain day. -/
def rainLine (dayLabel : String) (f : DailyForecast) : String :=
  "∙ **" ++ dayLabel ++ "**: " ++ f.textDay ++ "，预计降水 " ++ f.precipStr ++ "mm"

/-- The alert line appended for a severe day. -/
def severeLine (dayLabel : String) (f : DailyForecast) : String :=
  "∙ **" ++ dayLabel ++ "**: " ++ f.textDay

/-- One iteration of the `for daily_forecast in forecast_data` loop. -/
def scanDay (nowOrd : Int) (acc : DailyScan) (f : DailyForecast) : DailyScan :=
  let days_diff : Int := f.fxDateOrd - nowOrd
  let dayLabel := (day_map days_diff).getD f.fxDate
  let acc1 :=
    if dayIsRain f then
      { acc with
        rain_alerts := acc.rain_alerts ++ [rainLine dayLabel f],
        rain_days_indices :=
          acc.rain_days_indices ++ if (day_map days_diff).isSome then [days_diff] else [] }
    else acc
  if dayIsSevere f then
    { acc1 with
      other_severe_alerts := acc1.other_severe_alerts ++ [severeLine dayLabel f],
      severe_days_indices :=
        acc1.severe_days_indices ++ if (day_map days_diff).isSome then [days_diff] else [] }
  else acc1

/-- The whole scanning loop, starting from empty accumulators. -/
def scanDaily (nowOrd : Int) (fs : List DailyForecast) : DailyScan :=
  fs.foldl (scanDay nowOrd) ⟨[], [], [], []⟩

/-- The suffix chain over `rain_days_set` in `_handle_daily_push`. -/
def rainSuffix (rain_days_set : Finset Int) : String :=
  if rain_days_set.card = 3 then "-未来三天有雨"
  else if rain_days_set = {0, 1} then "-今明天有雨"
  else if rain_days_set = {1, 2} then "-明后天有雨"
  else if rain_days_set = {0, 2} then "-今后天有雨"
  else if rain_days_set = {0} then "-今天有雨"
  else if rain_days_set = {1} then "-明天有雨"
  else if rain_days_set = {2} then "-后天有雨"
  else ""

/-- The dynamic-title block of `_handle_daily_push`. -/
def titleOf (severe_days_indices rain_days_indices : List Int) : String :=
  if severe_days_indices ≠ [] then "⚠️ 今日天气-恶劣天气预警"
  else if rain_days_indices ≠ [] then "⚠️ 今日天气" ++ rainSuffix rain_days_indices.toFinset
  else "📢 今日天气"

/-- The day offset of a forecast record relative to today. -/
def dayOffset (nowOrd : Int) (f : DailyForecast) : Int :=
  f.fxDateOrd - nowOrd

/-- `weather_summary`: day text alone when day equals night, else
`day转night`. -/
def weatherSummary (f : DailyForecast) : String :=
  if f.textDay = f.textNight then f.textDay else f.textDay ++ "转" ++ f.textNight

/-- The `daily_content` block formatted for today's record. -/
def dailyContent (f : DailyForecast) : String :=
  "📅 **今日天气 · " ++ weatherSummary f ++ "**  \n" ++
    "🌡 气温：" ++ f.tempMin ++ " ~ " ++ f.tempMax ++ "℃  \n" ++
    "💨 风力：" ++ f.windDirDay ++ " " ++ f.windScaleDay ++ "级  \n" ++
    "💧 湿度：" ++ f.humidity ++ "%"

/-- The full message body assembled by `_handle_daily_push`. -/
def dailyBody (cfg : Config) (today_data : DailyForecast) (scan : DailyScan) : String :=
  let header := "📍 " ++ cfg.location_name ++ "\n"
  let full1 := header ++ "\n" ++ dailyContent today_data
  let full2 :=
    if scan.other_severe_alerts ≠ [] then
      full1 ++ "\n\n---\n**恶劣天气提醒**  \n" ++ String.intercalate "\n" scan.other_severe_alerts
    else full1
  if scan.rain_alerts ≠ [] then
    full2 ++ "\n\n---\n**降雨提醒**  \n" ++ String.intercalate "\n" scan.rain_alerts
  else full2

/-- `_handle_daily_push` as a transition on `last_daily_push_date`.
`resp` is the raw `/3d` response (fed through `get_daily_weather`);
`push_result` is the boolean `push_to_feishu` would return — the source
discards it, so it is an unused input here.  The first component is the
`(title, content)` pair pushed, `none` when nothing is pushed. -/
def handle_daily_push (cfg : Config) (last_daily_push_date : Option String)
    (now : Now) (resp : Option DailyResp) (push_result : Bool) :
    Option (String × String) × Option String :=
  let _ := push_result
  if now.hour = cfg.daily_push_hour ∧ now.minute = cfg.daily_push_minute then
    if last_daily_push_date ≠ some now.dateStr then
      match get_daily_weather resp with
      | none => (none, last_daily_push_date)
      | some [] => (none, last_daily_push_date)
      | some (today_data :: rest) =>
        let scan := scanDaily now.dateOrd (today_data :: rest)
        let title := titleOf scan.severe_days_indices scan.rain_days_indices
        (some (title, dailyBody cfg today_data scan), some now.dateStr)
    else (none, last_daily_push_date)
  else (none, last_daily_push_date)

/-- The strict keyword list of `_handle_rain_alert`. -/
def severe_rain_keywords : List String := ["中雨", "大雨", "暴雨", "极端降雨"]

/-- An hourly record qualifies when its text contains a strict keyword. -/
def isQualifying (f : HourlyForecast) : Bool :=
  severe_rain_keywords.any (fun k => pyIn k f.text)

/-- One detail line of the rain-alert body. -/
def hourlyLine (f : HourlyForecast) : String :=
  "∙ " ++ f.time ++ " | " ++ f.text ++ " | 降水概率 " ++ toString f.pop ++ "%"

/-- The hysteresis core of `_handle_rain_alert`, given the structured
hourly list: returns the pushed `(title, content)` (or `none`) and the
new `rain_active`. -/
def rainCheck (cfg : Config) (rain_active : Bool) (hourly_forecasts : List HourlyForecast) :
    Option (String × String) × Bool :=
  let detected_forecasts := hourly_forecasts.filter isQualifying
  let rain_start_time := ((detected_forecasts.head?).map (fun f => f.time)).getD ""
  if detected_forecasts.isEmpty then (none, false)
  else if rain_active then (none, true)
  else
    let title := "⚠️ 预计 " ++ rain_start_time ++ " 有强降雨，请注意"
    let header := "📍 " ++ cfg.location_name ++ "\n\n---\n"
    let hourly_content := "💧 **强降雨详情**  \n" ++
      String.intercalate "  \n" (detected_forecasts.map hourlyLine)
    (some (title, header ++ hourly_content), true)

/-- `_handle_rain_alert`: gated on the minute being a multiple of the
check interval, then fetch + hysteresis check. -/
def handle_rain_alert (cfg : Config) (rain_active : Bool) (now : Now)
    (resp : Option HourlyResp) : Option (String × String) × Bool :=
  if now.minute % cfg.check_interval_minutes = 0 then
    rainCheck cfg rain_active (get_hourly_weather now.absMinutes resp)
  else (none, rain_active)

/-- Emission flags of a sequence of rain checks, threading `rain_active`.
Each element of `ticks` is the hourly list one check sees. -/
def rainEmits (cfg : Config) (rain_active : Bool) : List (List HourlyForecast) → List Bool
  | [] => []
  | fs :: rest =>
    let r := rainCheck cfg rain_active fs
    r.1.isSome :: rainEmits cfg r.2 rest

/-- One scheduler tick's inputs as the daily trigger sees them. -/
structure DailyTick where
  now : Now
  resp : Option DailyResp
  push_result : Bool
deriving DecidableEq

/-- Emission flags of a sequence of daily-trigger evaluations, threading
`last_daily_push_date`. -/
def dailyEmits (cfg : Config) (st : Option String) : List DailyTick → List Bool
  | [] => []
  | t :: rest =>
    let r := handle_daily_push cfg st t.now t.resp t.push_result
    r.1.isSome :: dailyEmits cfg r.2 rest

/-- `next_minute` as computed at the end of `run`'s loop body. -/
def pyNextMinute (check_interval_minutes minute : Nat) : Nat :=
  let next_minute := (check_interval_minutes - minute % check_interval_minutes) % check_interval_minutes
  if next_minute = 0 then check_interval_minutes else next_minute

/-- `sleep_seconds = next_minute * 60 - now.second`. -/
def sleepSeconds (check_interval_minutes minute second : Nat) : Int :=
  (pyNextMinute check_interval_minutes minute : Int) * 60 - second

/-- A concrete configuration used by the concrete evaluations below:
daily push at 08:00, 30-minute check interval. -/
def cfgDemo : Config := ⟨"", "", "", "", "城市", 8, 0, 30, 0, 0⟩

/-- Day 0 of the worked example: sunny, no precipitation. -/
def dDemo0 : DailyForecast :=
  ⟨"2024-06-01", 0, "晴", "晴", 0, "0.0", "20", "30", "南风", "3", "60"⟩

/-- Day 1 of the worked example: moderate rain, 12 mm. -/
def dDemo1 : DailyForecast :=
  ⟨"2024-06-02", 1, "中雨", "中雨", 12, "12.0", "18", "25", "南风", "4", "80"⟩

/-- Day 2 of the worked example: overcast, no precipitation. -/
def dDemo2 : DailyForecast :=
  ⟨"2024-06-03", 2, "阴", "阴", 0, "0.0", "19", "27", "北风", "3", "70"⟩

/-- A `/3d` response carrying the three example days. -/
def respDemo : DailyResp := ⟨"200", [dDemo0, dDemo1, dDemo2]⟩

/-- The example instant: 08:00:00 on the example's day 0. -/
def nowDemo : Now := ⟨8, 0, 0, "2024-06-01", 0, 480⟩

theorem hourlyWindow_eq_filterMap (now : Nat) (items : List RawHourly) :
    hourlyWindow now items =
      (items.filter fun it => now ≤ it.fxTime && it.fxTime ≤ now + 360).map toForecast := by
  induction items with
  | nil => rfl
  | cons item rest ih =>
    by_cases h : now ≤ item.fxTime ∧ item.fxTime ≤ now + 360
    · simp [hourlyWindow, List.filter, h, h.1, h.2, toForecast, ih]
    · have hb : (now ≤ item.fxTime && item.fxTime ≤ now + 360) = false := by
        rcases Decidable.em (now ≤ item.fxTime) with h1 | h1
        · have h2 : ¬ item.fxTime ≤ now + 360 := fun h2 => h ⟨h1, h2⟩
          simp [h1, h2]
        · simp [h1]
      simp [hourlyWindow, List.filter, h, hb, ih]

/-- C3, counterexample: an hourly record whose forecast instant is exactly
`now + 6h` is kept by `get_hourly_weather`, not excluded: with `now = 0`
and one record at minute `360` (= 14:00 in UTC+8 with epoch at UTC
midnight), the result is that record, not the empty list. -/
theorem c3_boundary_record_kept :
    get_hourly_weather 0 (some ⟨"200", [⟨360, "中雨", 90⟩]⟩) =
      [⟨"14:00", "中雨", 90⟩] ∧
    (360 : Nat) = 0 + 360 := by
  constructor
  · rfl
  · rfl

/-- C3, amended: `get_hourly_weather` returns exactly the provider's hourly
records whose forecast instant lies in the CLOSED window
`[now, now + 6h]` (the source compares with `<=` on both ends), each
mapped to the `{HH:MM label, text, pop}` record; a record at exactly
`now + 6h` is therefore included. -/
theorem c3_hourly_window_closed (now : Nat) (r : HourlyResp) :
    (r.code = "200" →
      get_hourly_weather now (some r) =
        (r.hourly.filter fun it => now ≤ it.fxTime && it.fxTime ≤ now + 360).map toForecast) ∧
    (∀ it : RawHourly, it.fxTime = now + 360 →
      toForecast it ∈ get_hourly_weather now (some ⟨"200", [it]⟩)) := by
  constructor
  · intro hc
    simp only [get_hourly_weather, hc]
    simpa using hourlyWindow_eq_filterMap now r.hourly
  · intro it hit
    simp [get_hourly_weather, hourlyWindow, hit, toForecast]

/-- Witness for `c3_hourly_window_closed` at a concrete response. -/
theorem c3_hourly_window_closed_witness :
    get_hourly_weather 7 (some ⟨"200", [⟨3, "晴", 0⟩, ⟨100, "小雨", 40⟩, ⟨367, "中雨", 90⟩, ⟨368, "大雨", 95⟩]⟩) =
      ([⟨3, "晴", 0⟩, ⟨100, "小雨", 40⟩, ⟨367, "中雨", 90⟩, ⟨368, "大雨", 95⟩].filter
        fun it : RawHourly => 7 ≤ it.fxTime && it.fxTime ≤ 7 + 360).map toForecast ∧
    toForecast ⟨367, "中雨", 90⟩ ∈ get_hourly_weather 7 (some ⟨"200", [⟨367, "中雨", 90⟩]⟩) := by
  refine ⟨(c3_hourly_window_closed 7 ⟨"200", _⟩).1 rfl, ?_⟩
  exact (c3_hourly_window_closed 7 ⟨"200", [⟨367, "中雨", 90⟩]⟩).2 ⟨367, "中雨", 90⟩ rfl

theorem scanDay_rain_days (nowOrd : Int) (acc : DailyScan) (f : DailyForecast) :
    (scanDay nowOrd acc f).rain_days_indices =
      acc.rain_days_indices ++
        if dayIsRain f ∧ (day_map (dayOffset nowOrd f)).isSome then [dayOffset nowOrd f] else [] := by
  rcases acc with ⟨ra, oa, ri, si⟩
  by_cases hr : dayIsRain f <;> by_cases hs : dayIsSevere f <;>
    by_cases hm : (day_map (f.fxDateOrd - nowOrd)).isSome <;>
      simp [scanDay, dayOffset, hr, hs, hm]

theorem scanDay_severe_days (nowOrd : Int) (acc : DailyScan) (f : DailyForecast) :
    (scanDay nowOrd acc f).severe_days_indices =
      acc.severe_days_indices ++
        if dayIsSevere f ∧ (day_map (dayOffset nowOrd f)).isSome then [dayOffset nowOrd f] else [] := by
  rcases acc with ⟨ra, oa, ri, si⟩
  by_cases hr : dayIsRain f <;> by_cases hs : dayIsSevere f <;>
    by_cases hm : (day_map (f.fxDateOrd - nowOrd)).isSome <;>
      simp [scanDay, dayOffset, hr, hs, hm]

theorem foldl_scanDay_rain_days (nowOrd : Int) (fs : List DailyForecast) (acc : DailyScan) :
    (fs.foldl (scanDay nowOrd) acc).rain_days_indices =
      acc.rain_days_indices ++
        ((fs.filter dayIsRain).map (dayOffset nowOrd)).filter
          (fun d => (day_map d).isSome) := by
  induction fs generalizing acc with
  | nil => simp
  | cons f rest ih =>
    simp only [List.foldl_cons, ih, scanDay_rain_days]
    by_cases hr : dayIsRain f <;> by_cases hm : (day_map (dayOffset nowOrd f)).isSome <;>
      simp [hr, hm, List.filter_cons]

theorem foldl_scanDay_severe_days (nowOrd : Int) (fs : List DailyForecast) (acc : DailyScan) :
    (fs.foldl (scanDay nowOrd) acc).severe_days_indices =
      acc.severe_days_indices ++
        ((fs.filter dayIsSevere).map (dayOffset nowOrd)).filter
          (fun d => (day_map d).isSome) := by
  induction fs generalizing acc with
  | nil => simp
  | cons f rest ih =>
    simp only [List.foldl_cons, ih, scanDay_severe_days]
    by_cases hs : dayIsSevere f <;> by_cases hm : (day_map (dayOffset nowOrd f)).isSome <;>
      simp [hs, hm, List.filter_cons]

theorem rainCheck_fst_isSome (cfg : Config) (st : Bool) (fs : List HourlyForecast) :
    (rainCheck cfg st fs).1.isSome = (!(fs.filter isQualifying).isEmpty && !st) := by
  by_cases he : (fs.filter isQualifying).isEmpty <;> cases st <;> simp [rainCheck, he]

theorem rainCheck_snd (cfg : Config) (st : Bool) (fs : List HourlyForecast) :
    (rainCheck cfg st fs).2 = !(fs.filter isQualifying).isEmpty := by
  by_cases he : (fs.filter isQualifying).isEmpty <;> cases st <;> simp [rainCheck, he]

theorem rainEmits_active_replicate (cfg : Config) (fs : List HourlyForecast)
    (h : (fs.filter isQualifying).isEmpty = false) :
    ∀ n, rainEmits cfg true (List.replicate n fs) = List.replicate n false := by
  intro n
  induction n with
  | zero => rfl
  | succ n ih =>
    rw [List.replicate_succ]
    simp only [rainEmits, rainCheck_fst_isSome, rainCheck_snd, h]
    simp [ih, List.replicate_succ]

/-- C1: rain hysteresis.  Each check emits exactly when the qualifying
subset is non-empty and `rain_active` was false, and the new `rain_active`
records whether the tick qualified (so a non-qualifying tick resets it
with no emission); `n + 1` consecutive qualifying checks emit exactly one
alert; qualifying, non-qualifying, qualifying emits exactly two.  When
the minute gate passes, `_handle_rain_alert` is exactly this check on the
fetched hourly list. -/
theorem c1_rain_hysteresis :
    (∀ cfg st (now : Now) resp, now.minute % cfg.check_interval_minutes = 0 →
      handle_rain_alert cfg st now resp =
        rainCheck cfg st (get_hourly_weather now.absMinutes resp)) ∧
    (∀ cfg st fs,
      (rainCheck cfg st fs).1.isSome = (!(fs.filter isQualifying).isEmpty && !st) ∧
      (rainCheck cfg st fs).2 = !(fs.filter isQualifying).isEmpty) ∧
    (∀ cfg fs n, (fs.filter isQualifying).isEmpty = false →
      (rainEmits cfg false (List.replicate (n + 1) fs)).count true = 1) ∧
    (∀ cfg q nq, (q.filter isQualifying).isEmpty = false →
      (nq.filter isQualifying).isEmpty = true →
      (rainEmits cfg false [q, nq, q]).count true = 2) := by
  refine ⟨fun cfg st now resp h => by simp [handle_rain_alert, h],
    fun cfg st fs => ⟨rainCheck_fst_isSome cfg st fs, rainCheck_snd cfg st fs⟩, ?_, ?_⟩
  · intro cfg fs n h
    rw [List.replicate_succ]
    simp only [rainEmits, rainCheck_fst_isSome, rainCheck_snd, h]
    simp [rainEmits_active_replicate cfg fs h n, List.count_replicate]
  · intro cfg q nq hq hnq
    simp only [rainEmits, rainCheck_fst_isSome, rainCheck_snd, hq, hnq]
    simp

/-- Witness for `c1_rain_hysteresis` on concrete tick sequences. -/
theorem c1_rain_hysteresis_witness :
    (rainEmits ⟨"", "", "", "", "城市", 8, 0, 30, 0, 0⟩ false
      (List.replicate 3 [⟨"16:00", "中雨", 90⟩])).count true = 1 ∧
    (rainEmits ⟨"", "", "", "", "城市", 8, 0, 30, 0, 0⟩ false
      [[⟨"16:00", "中雨", 90⟩], [⟨"17:00", "小雨", 60⟩], [⟨"16:00", "中雨", 90⟩]]).count true = 2 := by
  constructor
  · exact c1_rain_hysteresis.2.2.1 ⟨"", "", "", "", "城市", 8, 0, 30, 0, 0⟩
      [⟨"16:00", "中雨", 90⟩] 2 (by decide)
  · exact c1_rain_hysteresis.2.2.2 ⟨"", "", "", "", "城市", 8, 0, 30, 0, 0⟩
      [⟨"16:00", "中雨", 90⟩] [⟨"17:00", "小雨", 60⟩] (by decide) (by decide)

/-- C7: the hourly qualifying test is exactly a strict-keyword hit
(中雨/大雨/暴雨/极端降雨); every strict keyword is also a daily rain
keyword while 阵雨 is a daily keyword that never qualifies hourly and
小雨/阵雨 texts never qualify; an emitted alert's title carries the time
label of the first qualifying record in list order and its body lists all
qualifying records. -/
theorem c7_hourly_qualifying :
    (∀ f : HourlyForecast, isQualifying f = severe_rain_keywords.any (fun k => pyIn k f.text)) ∧
    (∀ s : String, severe_rain_keywords.any (fun k => pyIn k s) = true →
      rain_keywords.any (fun k => pyIn k s) = true) ∧
    (rain_keywords.any (fun k => pyIn k "阵雨") = true ∧
      severe_rain_keywords.any (fun k => pyIn k "阵雨") = false) ∧
    (∀ f : HourlyForecast, f.text = "小雨" ∨ f.text = "阵雨" → isQualifying f = false) ∧
    (∀ cfg fs d0 ds, fs.filter isQualifying = d0 :: ds →
      rainCheck cfg false fs =
        (some ("⚠️ 预计 " ++ d0.time ++ " 有强降雨，请注意",
          "📍 " ++ cfg.location_name ++ "\n\n---\n" ++ "💧 **强降雨详情**  \n" ++
            String.intercalate "  \n" ((d0 :: ds).map hourlyLine)), true)) := by
  refine ⟨fun f => rfl, ?_, by decide, ?_, ?_⟩
  · intro s h
    simp only [severe_rain_keywords, List.any_cons, List.any_nil, Bool.or_eq_true,
      Bool.or_false] at h
    simp only [rain_keywords, List.any_cons, List.any_nil, Bool.or_eq_true, Bool.or_false]
    tauto
  · rintro f (h | h) <;> simp [isQualifying, h, severe_rain_keywords, pyIn, hasSub] <;> decide
  · intro cfg fs d0 ds h
    simp only [rainCheck, h, List.isEmpty_cons, List.head?_cons, Option.map_some,
      Option.getD_some, Bool.false_eq_true, if_false, Bool.ite_eq_false]
    rw [Prod.mk.injEq]
    refine ⟨?_, rfl⟩
    rw [Option.some_inj, Prod.mk.injEq]
    exact ⟨rfl, (String.append_assoc _ _ _).symm⟩

/-- Witness for `c7_hourly_qualifying` at the spec's worked example:
15:00 light rain 70%, 16:00 moderate rain 90%, 17:00 light rain 60%,
`rain_active = false`. -/
theorem c7_hourly_qualifying_witness :
    rainCheck cfgDemo false
        [⟨"15:00", "小雨", 70⟩, ⟨"16:00", "中雨", 90⟩, ⟨"17:00", "小雨", 60⟩] =
      (some ("⚠️ 预计 " ++ "16:00" ++ " 有强降雨，请注意",
        "📍 " ++ cfgDemo.location_name ++ "\n\n---\n" ++ "💧 **强降雨详情**  \n" ++
          String.intercalate "  \n" ([(⟨"16:00", "中雨", 90⟩ : HourlyForecast)].map hourlyLine)),
        true) ∧
    isQualifying ⟨"15:00", "小雨", 70⟩ = false := by
  constructor
  · exact c7_hourly_qualifying.2.2.2.2 cfgDemo
      [⟨"15:00", "小雨", 70⟩, ⟨"16:00", "中雨", 90⟩, ⟨"17:00", "小雨", 60⟩]
      ⟨"16:00", "中雨", 90⟩ [] (by decide)
  · exact c7_hourly_qualifying.2.2.2.1 ⟨"15:00", "小雨", 70⟩ (Or.inl rfl)

/-- C6: a forecast day is flagged as a rain day exactly when its combined
day+night text contains one of 阵雨/中雨/大雨/暴雨/极端降雨, or its
precipitation is at least 5.0 mm and the combined text contains 雨; the
collected rain-day indices are the offsets of the flagged days that fall
in {0,1,2}; on the worked triple (晴 / 中雨 12mm / 阴 0mm) the rain-day
set is {1}, the severe-day set is empty and the title carries 明天有雨. -/
theorem c6_daily_rain_predicate :
    (∀ f : DailyForecast, dayIsRain f =
      (rain_keywords.any (fun k => pyIn k (f.textDay ++ f.textNight)) ||
        (decide ((5 : Rat) ≤ f.precip) && pyIn "雨" (f.textDay ++ f.textNight)))) ∧
    (∀ nowOrd fs, (scanDaily nowOrd fs).rain_days_indices =
      ((fs.filter dayIsRain).map (dayOffset nowOrd)).filter (fun d => (day_map d).isSome)) ∧
    ((scanDaily 0 [dDemo0, dDemo1, dDemo2]).rain_days_indices = [1] ∧
      (scanDaily 0 [dDemo0, dDemo1, dDemo2]).severe_days_indices = [] ∧
      titleOf (scanDaily 0 [dDemo0, dDemo1, dDemo2]).severe_days_indices
          (scanDaily 0 [dDemo0, dDemo1, dDemo2]).rain_days_indices =
        "⚠️ 今日天气" ++ "-明天有雨") := by
  refine ⟨fun f => rfl, ?_, by decide⟩
  intro nowOrd fs
  simpa using foldl_scanDay_rain_days nowOrd fs ⟨[], [], [], []⟩

theorem warn_ne_plain (s : String) : "⚠️ 今日天气" ++ s ≠ "📢 今日天气" := by
  intro h
  have hlen := congrArg String.length h
  rw [String.length_append] at hlen
  have h1 : "⚠️ 今日天气".length = 7 := rfl
  have h2 : "📢 今日天气".length = 6 := rfl
  omega

theorem titleOf_no_severe (rd : List Int) (h : rd ≠ []) :
    titleOf [] rd = "⚠️ 今日天气" ++ rainSuffix rd.toFinset := by
  simp [titleOf, h]

/-- C4: over the 7 non-empty subsets of `{0,1,2}` the suffix chain is a
total exact-match function: with no severe day and rain-day set `S`, the
title is the warning title with `S`'s suffix; the suffix is never empty,
distinct subsets get distinct suffixes, and no such `S` falls through to
the default no-warning title. -/
theorem c4_rain_suffix_total (S : Finset Int) (hS : S ⊆ {0, 1, 2}) (hne : S.Nonempty) :
    (∀ rd : List Int, rd.toFinset = S →
      titleOf [] rd = "⚠️ 今日天气" ++ rainSuffix S ∧ titleOf [] rd ≠ "📢 今日天气") ∧
    rainSuffix S ≠ "" ∧
    (∀ T : Finset Int, T ⊆ {0, 1, 2} → T.Nonempty → rainSuffix S = rainSuffix T → S = T) := by
  have hrd : ∀ rd : List Int, rd.toFinset = S →
      titleOf [] rd = "⚠️ 今日天气" ++ rainSuffix S := by
    intro rd hrdS
    have hrdne : rd ≠ [] := by
      intro h0
      rw [h0] at hrdS
      rw [← hrdS] at hne
      simp [List.toFinset_nil] at hne
    rw [titleOf_no_severe rd hrdne, hrdS]
  have key : ∀ S ∈ ({0, 1, 2} : Finset Int).powerset, S.Nonempty →
      rainSuffix S ≠ "" ∧
        ∀ T ∈ ({0, 1, 2} : Finset Int).powerset, T.Nonempty →
          rainSuffix S = rainSuffix T → S = T := by decide
  refine ⟨fun rd h => ⟨hrd rd h, by rw [hrd rd h]; exact warn_ne_plain _⟩, ?_, ?_⟩
  · exact (key S (Finset.mem_powerset.mpr hS) hne).1
  · intro T hT hTne heq
    exact (key S (Finset.mem_powerset.mpr hS) hne).2 T (Finset.mem_powerset.mpr hT) hTne heq

/-- Witness for `c4_rain_suffix_total` at `S = {1}`. -/
theorem c4_rain_suffix_total_witness :
    titleOf [] [1] = "⚠️ 今日天气" ++ rainSuffix {1} ∧
    rainSuffix ({1} : Finset Int) ≠ "" := by
  have h := c4_rain_suffix_total {1} (by decide) ⟨1, by decide⟩
  exact ⟨(h.1 [1] (by decide)).1, h.2.1⟩

theorem list_eq_nil_of_toFinset_eq (a b : List Int) (h : a.toFinset = b.toFinset)
    (ha : a = []) : b = [] := by
  rw [ha, List.toFinset_nil] at h
  have := h.symm
  rwa [List.toFinset_eq_empty_iff] at this

/-- C5: the digest title is a function of the (severe-day-set, rain-day-set)
pair; a non-empty severe set forces the generic severe-weather title
whatever the rain set is; both sets empty give the plain no-warning title;
and every title `_handle_daily_push` pushes is this function of the sets
scanned from the fetched forecast. -/
theorem c5_title_deterministic :
    (∀ s1 r1 s2 r2 : List Int, s1.toFinset = s2.toFinset → r1.toFinset = r2.toFinset →
      titleOf s1 r1 = titleOf s2 r2) ∧
    (∀ (s r : List Int), s ≠ [] → titleOf s r = "⚠️ 今日天气-恶劣天气预警") ∧
    titleOf [] [] = "📢 今日天气" ∧
    (∀ cfg st now resp b p, (handle_daily_push cfg st now resp b).1 = some p →
      ∃ fs, get_daily_weather resp = some fs ∧
        p.1 = titleOf (scanDaily now.dateOrd fs).severe_days_indices
          (scanDaily now.dateOrd fs).rain_days_indices) := by
  refine ⟨?_, ?_, rfl, ?_⟩
  · intro s1 r1 s2 r2 hs hr
    by_cases h1 : s1 = []
    · have h2 : s2 = [] := list_eq_nil_of_toFinset_eq s1 s2 hs h1
      by_cases h3 : r1 = []
      · have h4 : r2 = [] := list_eq_nil_of_toFinset_eq r1 r2 hr h3
        rw [h1, h2, h3, h4]
      · have h4 : r2 ≠ [] := fun h0 => h3 (list_eq_nil_of_toFinset_eq r2 r1 hr.symm h0)
        rw [h1, h2, titleOf_no_severe r1 h3, titleOf_no_severe r2 h4, hr]
    · have h2 : s2 ≠ [] := fun h0 => h1 (list_eq_nil_of_toFinset_eq s2 s1 hs.symm h0)
      simp [titleOf, h1, h2]
  · intro s r h
    simp [titleOf, h]
  · intro cfg st now resp b p h
    unfold handle_daily_push at h
    by_cases h1 : now.hour = cfg.daily_push_hour ∧ now.minute = cfg.daily_push_minute
    · rw [if_pos h1] at h
      by_cases h2 : st ≠ some now.dateStr
      · rw [if_pos h2] at h
        cases hres : get_daily_weather resp with
        | none => rw [hres] at h; simp at h
        | some fs =>
          rw [hres] at h
          cases fs with
          | nil => simp at h
          | cons f rest =>
            refine ⟨f :: rest, rfl, ?_⟩
            simp only [Option.some_inj] at h
            rw [← h]
      · rw [if_neg h2] at h
        simp at h
    · rw [if_neg h1] at h
      simp at h

/-- Witness for `c5_title_deterministic`: severe priority at `s = [0]`,
and the worked example's push title is the title function of its sets. -/
theorem c5_title_deterministic_witness :
    titleOf [0] [1] = "⚠️ 今日天气-恶劣天气预警" ∧
    (∃ fs, get_daily_weather (some respDemo) = some fs ∧
      ("⚠️ 今日天气" ++ "-明天有雨" : String) =
        titleOf (scanDaily nowDemo.dateOrd fs).severe_days_indices
          (scanDaily nowDemo.dateOrd fs).rain_days_indices) := by
  constructor
  · exact c5_title_deterministic.2.1 [0] [1] (by decide)
  · exact c5_title_deterministic.2.2.2 cfgDemo none nowDemo (some respDemo) true
      ("⚠️ 今日天气" ++ "-明天有雨",
        dailyBody cfgDemo dDemo0 (scanDaily nowDemo.dateOrd [dDemo0, dDemo1, dDemo2])) (by decide)

theorem hdp_cases (cfg : Config) (st : Option String) (now : Now) (resp : Option DailyResp)
    (b : Bool) :
    handle_daily_push cfg st now resp b = (none, st) ∨
    ((handle_daily_push cfg st now resp b).1.isSome = true ∧
      (handle_daily_push cfg st now resp b).2 = some now.dateStr ∧
      (now.hour = cfg.daily_push_hour ∧ now.minute = cfg.daily_push_minute) ∧
      st ≠ some now.dateStr) := by
  unfold handle_daily_push
  by_cases h1 : now.hour = cfg.daily_push_hour ∧ now.minute = cfg.daily_push_minute
  · by_cases h2 : st ≠ some now.dateStr
    · cases hres : get_daily_weather resp with
      | none => simp [h1, h2, hres]
      | some fs =>
        cases fs with
        | nil => simp [h1, h2, hres]
        | cons f rest =>
          right
          simp [h1, h2, hres]
    · simp [h1, h2]
  · simp [h1]

theorem hdp_snd_eq (cfg : Config) (st : Option String) (now : Now) (resp : Option DailyResp)
    (b : Bool) :
    (handle_daily_push cfg st now resp b).2 =
      if (handle_daily_push cfg st now resp b).1.isSome then some now.dateStr else st := by
  rcases hdp_cases cfg st now resp b with h | ⟨h1, h2, _⟩
  · rw [h]; simp
  · rw [h2, if_pos h1]

theorem dailyEmits_same_date_stuck (cfg : Config) (d : String) (ticks : List DailyTick)
    (h : ∀ t ∈ ticks, t.now.dateStr = d) :
    dailyEmits cfg (some d) ticks = List.replicate ticks.length false := by
  induction ticks with
  | nil => rfl
  | cons t rest ih =>
    have hd : t.now.dateStr = d := h t (List.mem_cons_self t rest)
    have hstep : handle_daily_push cfg (some d) t.now t.resp t.push_result = (none, some d) := by
      rcases hdp_cases cfg (some d) t.now t.resp t.push_result with h0 | ⟨_, _, _, h4⟩
      · exact h0
      · exact absurd (by rw [hd]) h4
    simp only [dailyEmits, hstep, List.length_cons, List.replicate_succ]
    exact congrArg (List.cons (Option.isSome none)) (ih fun x hx => h x (List.mem_cons_of_mem t hx))

/-- C2: the daily digest fires at most once per calendar date.  A push
requires the exact configured (hour, minute) and a date different from
`last_daily_push_date`; the new `last_daily_push_date` is today's date
exactly when a push attempt completed, else unchanged; hence over any run
whose ticks all carry the same date, at most one push happens. -/
theorem c2_daily_once_per_date :
    (∀ cfg st now resp b,
      ((handle_daily_push cfg st now resp b).1.isSome = true →
        now.hour = cfg.daily_push_hour ∧ now.minute = cfg.daily_push_minute ∧
          st ≠ some now.dateStr) ∧
      (handle_daily_push cfg st now resp b).2 =
        (if (handle_daily_push cfg st now resp b).1.isSome then some now.dateStr else st)) ∧
    (∀ cfg st d (ticks : List DailyTick), (∀ t ∈ ticks, t.now.dateStr = d) →
      (dailyEmits cfg st ticks).count true ≤ 1) := by
  constructor
  · intro cfg st now resp b
    refine ⟨?_, hdp_snd_eq cfg st now resp b⟩
    intro h
    rcases hdp_cases cfg st now resp b with h0 | ⟨_, _, h3, h4⟩
    · rw [h0] at h; simp at h
    · exact ⟨h3.1, h3.2, h4⟩
  · intro cfg st d ticks h
    induction ticks generalizing st with
    | nil => simp [dailyEmits]
    | cons t rest ih =>
      have hd : t.now.dateStr = d := h t (List.mem_cons_self t rest)
      have hrest : ∀ x ∈ rest, x.now.dateStr = d := fun x hx => h x (List.mem_cons_of_mem t hx)
      rcases hdp_cases cfg st t.now t.resp t.push_result with h0 | ⟨h1, h2, _⟩
      · simp only [dailyEmits, h0]
        simpa using ih st hrest
      · simp only [dailyEmits, h1, h2, hd]
        rw [dailyEmits_same_date_stuck cfg d rest hrest]
        simp [List.count_replicate]

/-- Witness for `c2_daily_once_per_date`: a double tick at 08:00 and 08:01
of the same date pushes once in total. -/
theorem c2_daily_once_per_date_witness :
    (dailyEmits cfgDemo none
      [⟨nowDemo, some respDemo, true⟩, ⟨⟨8, 1, 0, "2024-06-01", 0, 481⟩, some respDemo, true⟩]).count
        true ≤ 1 ∧
    cfgDemo.daily_push_hour = 8 ∧
    (handle_daily_push cfgDemo (some "2024-06-01") nowDemo (some respDemo) true).1.isSome = false := by
  refine ⟨?_, rfl, by decide⟩
  exact c2_daily_once_per_date.2 cfgDemo none "2024-06-01"
    [⟨nowDemo, some respDemo, true⟩, ⟨⟨8, 1, 0, "2024-06-01", 0, 481⟩, some respDemo, true⟩]
    (by decide)

/-- C8: the two fetchers degrade differently — the daily fetch returns a
distinguishable `none` on transport failure or a non-"200" code while the
hourly fetch returns `[]`; a failed daily fetch at the trigger minute is
atomic (no push, `last_daily_push_date` untouched); the discarded push
result never influences the handler, so a completed push attempt marks
the date whether the push succeeded or failed. -/
theorem c8_failure_modes :
    get_daily_weather none = none ∧
    (∀ r : DailyResp, r.code ≠ "200" → get_daily_weather (some r) = none) ∧
    (∀ now, get_hourly_weather now none = []) ∧
    (∀ now (r : HourlyResp), r.code ≠ "200" → get_hourly_weather now (some r) = []) ∧
    (∀ cfg st now resp b, get_daily_weather resp = none →
      handle_daily_push cfg st now resp b = (none, st)) ∧
    (∀ cfg st now resp b1 b2,
      handle_daily_push cfg st now resp b1 = handle_daily_push cfg st now resp b2) ∧
    (∀ cfg st now resp b f rest, get_daily_weather resp = some (f :: rest) →
      now.hour = cfg.daily_push_hour → now.minute = cfg.daily_push_minute →
      st ≠ some now.dateStr →
      (handle_daily_push cfg st now resp b).1.isSome = true ∧
        (handle_daily_push cfg st now resp b).2 = some now.dateStr) := by
  refine ⟨rfl, fun r h => by simp [get_daily_weather, h], fun now => rfl,
    fun now r h => by simp [get_hourly_weather, h], ?_, fun _ _ _ _ _ _ => rfl, ?_⟩
  · intro cfg st now resp b h
    unfold handle_daily_push
    rw [h]
    by_cases h1 : now.hour = cfg.daily_push_hour ∧ now.minute = cfg.daily_push_minute
    · by_cases h2 : st ≠ some now.dateStr
      · simp [h1, h2]
      · simp [h1, h2]
    · simp [h1]
  · intro cfg st now resp b f rest hres h1 h2 h3
    unfold handle_daily_push
    rw [hres]
    simp [h1, h2, h3]

/-- Witness for `c8_failure_modes` at concrete failing and succeeding
responses. -/
theorem c8_failure_modes_witness :
    get_daily_weather (some ⟨"404", [dDemo0]⟩) = none ∧
    get_hourly_weather 480 (some ⟨"404", [⟨500, "中雨", 90⟩]⟩) = [] ∧
    handle_daily_push cfgDemo none nowDemo none true = (none, none) ∧
    (handle_daily_push cfgDemo none nowDemo (some respDemo) true).1.isSome = true ∧
    (handle_daily_push cfgDemo none nowDemo (some respDemo) true).2 = some nowDemo.dateStr := by
  refine ⟨c8_failure_modes.2.1 ⟨"404", [dDemo0]⟩ (by decide),
    c8_failure_modes.2.2.2.1 480 ⟨"404", [⟨500, "中雨", 90⟩]⟩ (by decide),
    c8_failure_modes.2.2.2.2.1 cfgDemo none nowDemo none true rfl, ?_⟩
  exact c8_failure_modes.2.2.2.2.2.2 cfgDemo none nowDemo (some respDemo) true
    dDemo0 [dDemo1, dDemo2] rfl rfl rfl (by decide)

/-- C9: for any minute and second in range and any interval of at least a
minute, the computed sleep is strictly positive, the wake-up minute is on
an interval boundary (`(minute + next_minute) % interval = 0`), and a tick
already on a boundary sleeps a full interval. -/
theorem c9_sleep_alignment (check_interval_minutes minute second : Nat)
    (hI : 1 ≤ check_interval_minutes) (hm : minute ≤ 59) (hs : second ≤ 59) :
    0 < sleepSeconds check_interval_minutes minute second ∧
    (minute + pyNextMinute check_interval_minutes minute) % check_interval_minutes = 0 ∧
    (minute % check_interval_minutes = 0 →
      pyNextMinute check_interval_minutes minute = check_interval_minutes) := by
  have hIpos : 0 < check_interval_minutes := hI
  have hmod : minute % check_interval_minutes < check_interval_minutes :=
    Nat.mod_lt _ hIpos
  by_cases hr : minute % check_interval_minutes = 0
  · have hnm : pyNextMinute check_interval_minutes minute = check_interval_minutes := by
      simp [pyNextMinute, hr]
    refine ⟨?_, ?_, fun _ => hnm⟩
    · rw [sleepSeconds, hnm]
      omega
    · rw [hnm, Nat.add_mod_right]
      exact hr
  · have hsub : check_interval_minutes - minute % check_interval_minutes <
        check_interval_minutes := by omega
    have hsubpos : 0 < check_interval_minutes - minute % check_interval_minutes := by omega
    have hnm : pyNextMinute check_interval_minutes minute =
        check_interval_minutes - minute % check_interval_minutes := by
      rw [pyNextMinute]
      rw [Nat.mod_eq_of_lt hsub]
      simp
      omega
    refine ⟨?_, ?_, fun h0 => absurd h0 hr⟩
    · rw [sleepSeconds, hnm]
      omega
    · rw [hnm, Nat.add_mod, Nat.mod_eq_of_lt hsub]
      have hsum : minute % check_interval_minutes +
          (check_interval_minutes - minute % check_interval_minutes) =
          check_interval_minutes := by omega
      rw [hsum, Nat.mod_self]

/-- Witness for `c9_sleep_alignment` at a tick exactly on a boundary. -/
theorem c9_sleep_alignment_witness :
    0 < sleepSeconds 30 30 59 ∧ (30 + pyNextMinute 30 30) % 30 = 0 ∧
    (30 % 30 = 0 → pyNextMinute 30 30 = 30) :=
  c9_sleep_alignment 30 30 59 (by decide) (by decide) (by decide)

/-- C10: the loaded thresholds `rain_threshold_precip` and
`rain_threshold_pop` influence neither trigger: two configurations that
differ only in those two fields produce identical daily-push and
rain-alert behaviour on every state and input. -/
theorem c10_thresholds_unused (cfg : Config) (p : Rat) (q : Int) :
    (∀ st now resp b,
      handle_daily_push { cfg with rain_threshold_precip := p, rain_threshold_pop := q }
          st now resp b =
        handle_daily_push cfg st now resp b) ∧
    (∀ st now resp,
      handle_rain_alert { cfg with rain_threshold_precip := p, rain_threshold_pop := q }
          st now resp =
        handle_rain_alert cfg st now resp) := by
  cases cfg
  exact ⟨fun _ _ _ _ => rfl, fun _ _ _ => rfl⟩

end WeatherPusher
